import Mathlib

/-!
Shallow embedding of the appaudiencias audio pipeline
(`src/components/TranscriptionPanel.tsx`, `src/components/TextToSpeechPanel.tsx`,
`src/services/geminiService.ts`) and proofs about its transcript accumulator,
session lifecycle, file chunking, and text-to-speech handlers.

Asynchronous browser calls are modelled by an `Env` record of outcomes
(credential present, microphone granted, decode success) and every handler is a
pure function from the component state to the new state plus the ordered list of
observable side effects it performs.
-/

namespace AppAudiencias

/-- A transcript event delivered by the streaming session, as consumed by
`startSession.onmessage` in `TranscriptionPanel.tsx`: either an incremental
`inputTranscription` text delta or a `turnComplete` marker. -/
inductive TranscriptEvent where
  | inputTranscription (text : String)
  | turnComplete
  deriving DecidableEq, Repr

/-- One step of the transcript accumulator (the two appends in
`startSession.onmessage`): a text delta appends its text to the running
transcript, `turnComplete` appends a single space separator. -/
def applyEvent (t : String) : TranscriptEvent → String
  | TranscriptEvent.inputTranscription s => t ++ s
  | TranscriptEvent.turnComplete => t ++ " "

/-- Folding a sequence of transcript events over a running transcript, in
delivery order. -/
def applyEvents (t : String) (es : List TranscriptEvent) : String :=
  es.foldl applyEvent t

/-- The two strings the message handler maintains: `current` is the local
accumulator variable `currentTranscription`, and `displayed` is the React state
`transcription`, which `setTranscription` updates only on a text delta. -/
structure AccState where
  current : String
  displayed : String
  deriving DecidableEq, Repr

/-- One `onmessage` step on both strings: a text delta appends to the
accumulator and publishes the accumulator to the display; `turnComplete`
appends the separator to the accumulator only. -/
def applyEventD (a : AccState) : TranscriptEvent → AccState
  | TranscriptEvent.inputTranscription s =>
      { current := a.current ++ s, displayed := a.current ++ s }
  | TranscriptEvent.turnComplete => { a with current := a.current ++ " " }

/-- Folding a sequence of transcript events over the accumulator/display pair. -/
def applyEventsD (a : AccState) (es : List TranscriptEvent) : AccState :=
  es.foldl applyEventD a

/-- Claim C1: the transcript accumulator is a pure left fold over transcript
events in delivery order — a text delta appends its text, `turnComplete`
appends a single space — and on the two canonical sequences it yields
"ab" and "a b" respectively. -/
theorem transcript_accumulator_fold :
    (∀ t s, applyEvent t (TranscriptEvent.inputTranscription s) = t ++ s)
    ∧ (∀ t, applyEvent t TranscriptEvent.turnComplete = t ++ " ")
    ∧ (∀ t es e, applyEvents t (es ++ [e]) = applyEvent (applyEvents t es) e)
    ∧ applyEvents "" [TranscriptEvent.inputTranscription "a",
        TranscriptEvent.inputTranscription "b"] = "ab"
    ∧ applyEvents "" [TranscriptEvent.inputTranscription "a",
        TranscriptEvent.turnComplete, TranscriptEvent.inputTranscription "b"] = "a b" := by
  refine ⟨fun t s => rfl, fun t => rfl, fun t es e => ?_, by decide, by decide⟩
  simp [applyEvents, List.foldl_append]

/-- Claim C10, counterexample: after the sequence
`[inputTranscription "a", turnComplete, turnComplete]` the displayed transcript
is "a", while the fold of the sequence with its trailing `turnComplete` removed
(equally, the full fold with one trailing separator character dropped) is
"a ": the two differ, so the claimed equality fails on this sequence. -/
theorem displayed_transcript_counterexample :
    (applyEventsD ⟨"", ""⟩ [TranscriptEvent.inputTranscription "a",
        TranscriptEvent.turnComplete, TranscriptEvent.turnComplete]).displayed = "a"
    ∧ applyEvents "" [TranscriptEvent.inputTranscription "a",
        TranscriptEvent.turnComplete] = "a "
    ∧ (applyEvents "" [TranscriptEvent.inputTranscription "a",
        TranscriptEvent.turnComplete, TranscriptEvent.turnComplete]).dropRight 1 = "a "
    ∧ ("a" : String) ≠ "a " := by
  refine ⟨by decide, by decide, by decide, by decide⟩

/-- Claim C10, amended: a `turnComplete` event appends the separator only to the
internal accumulator and leaves the displayed transcript unchanged; the
separator becomes visible exactly when a later text delta arrives, at which
point the display catches up with the full accumulator including the separator. -/
theorem turnComplete_not_displayed (a : AccState) (es : List TranscriptEvent) (s : String) :
    (applyEventsD a (es ++ [TranscriptEvent.turnComplete])).displayed
        = (applyEventsD a es).displayed
    ∧ (applyEventsD a (es ++ [TranscriptEvent.turnComplete])).current
        = (applyEventsD a es).current ++ " "
    ∧ (applyEventsD a (es ++ [TranscriptEvent.turnComplete,
        TranscriptEvent.inputTranscription s])).displayed
        = (applyEventsD a es).current ++ " " ++ s := by
  refine ⟨?_, ?_, ?_⟩ <;> simp [applyEventsD, List.foldl_append, applyEventD]

/-- Outcomes of the asynchronous browser/backend calls a transcription
operation performs: whether `process.env.API_KEY` is set, whether
`getUserMedia` resolves, and whether `decodeAudioData` resolves. -/
structure Env where
  apiKey : Bool
  micOk : Bool
  decodeOk : Bool
  deriving DecidableEq, Repr

/-- Observable side effects of the transcription panel, in emission order.
`connect` is `ai.live.connect`, `sessionClose` is `session.close()`,
`sendChunk` is `session.sendRealtimeInput` on the file path, `sleep` is an
awaited timeout, and the last four are the teardown calls in `stopRecording`. -/
inductive Effect where
  | connect
  | sessionClose
  | getUserMedia
  | decodeCall
  | sendChunk (samples : List Int)
  | sleep (ms : Nat)
  | trackStop
  | procDisconnect
  | srcDisconnect
  | ctxClose
  deriving DecidableEq, Repr

/-- The React state and refs of `TranscriptionPanel`: the four pieces of
`useState` the claims mention plus, for each `useRef` holding a resource,
whether it currently holds one (`sessionOpen` is `sessionPromiseRef.current`
being non-null, and likewise for the four media refs). -/
structure PanelState where
  isRecording : Bool
  isProcessing : Bool
  transcription : String
  error : Option String
  sessionOpen : Bool
  mediaStream : Bool
  scriptProcessor : Bool
  mediaStreamSource : Bool
  audioContext : Bool
  deriving DecidableEq, Repr

/-- The idle panel state right after mount. -/
def idleState : PanelState :=
  { isRecording := false, isProcessing := false, transcription := "",
    error := none, sessionOpen := false, mediaStream := false,
    scriptProcessor := false, mediaStreamSource := false, audioContext := false }

/-- `startSession`: with no API key it sets the configuration error and returns
null (third component `false`); otherwise it calls `ai.live.connect` and stores
the session promise in `sessionPromiseRef`. -/
def startSession (env : Env) (s : PanelState) : PanelState × List Effect × Bool :=
  if env.apiKey then
    ({ s with sessionOpen := true }, [Effect.connect], true)
  else
    ({ s with error := some "API_KEY environment variable not set." }, [], false)

/-- `stopSession`: when `sessionPromiseRef` holds a session it requests
`session.close()` and clears the ref; otherwise it does nothing. -/
def stopSession (s : PanelState) : PanelState × List Effect :=
  if s.sessionOpen then ({ s with sessionOpen := false }, [Effect.sessionClose])
  else (s, [])

/-- `startRecording`: early-returns when already recording; otherwise resets the
transcript and error, flips the recording flag, starts a session (bailing out
and clearing the flag when `startSession` returned null), then requests the
microphone; on microphone failure it sets the permission error, clears the
flag and stops the session. -/
def startRecording (env : Env) (s : PanelState) : PanelState × List Effect :=
  if s.isRecording then (s, []) else
  let s0 : PanelState := { s with transcription := "", error := none, isRecording := true }
  let r := startSession env s0
  if r.2.2 then
    if env.micOk then
      ({ r.1 with mediaStream := true, audioContext := true,
                  mediaStreamSource := true, scriptProcessor := true },
        r.2.1 ++ [Effect.getUserMedia])
    else
      let s1 : PanelState := { r.1 with
        error := some "No se pudo acceder al micrófono. Por favor, verifique los permisos.",
        isRecording := false }
      let r2 := stopSession s1
      (r2.1, r.2.1 ++ [Effect.getUserMedia] ++ r2.2)
  else
    ({ r.1 with isRecording := false }, r.2.1)

/-- `stopRecording`: clears the recording flag, stops the session, then for each
media ref that still holds a resource performs its release call
(track stop, processor disconnect, source disconnect, context close) and
nulls all four refs. -/
def stopRecording (s : PanelState) : PanelState × List Effect :=
  let r := stopSession { s with isRecording := false }
  let cleanup : List Effect :=
    (if r.1.mediaStream then [Effect.trackStop] else [])
    ++ (if r.1.scriptProcessor then [Effect.procDisconnect] else [])
    ++ (if r.1.mediaStreamSource then [Effect.srcDisconnect] else [])
    ++ (if r.1.audioContext then [Effect.ctxClose] else [])
  ({ r.1 with mediaStream := false, scriptProcessor := false,
              mediaStreamSource := false, audioContext := false },
    r.2 ++ cleanup)

/-- The `onerror` callback of `startSession`: sets the user-facing session-error
message and forces both flags to false; it performs no further effect. -/
def onerror (s : PanelState) : PanelState × List Effect :=
  ({ s with error := some "Error en la sesión de transcripción. Intente de nuevo.",
            isRecording := false, isProcessing := false }, [])

/-- The chunk size of the file-upload send loop. -/
def chunkSize : Nat := 4096

/-- The consecutive slices `audioData.slice(i, i + chunkSize)` visited by the
file-upload send loop, in order. -/
def fileChunks (xs : List Int) : List (List Int) :=
  if h : xs = [] then [] else xs.take chunkSize :: fileChunks (xs.drop chunkSize)
  termination_by xs.length
  decreasing_by
    have hlen : 0 < xs.length := List.length_pos.mpr h
    simp only [List.length_drop, chunkSize]
    omega

/-- The effect trace of one pass of the send loop over a given chunk list: each
iteration sends its slice when the slice is nonempty, then awaits the 50 ms
pacing timeout. -/
def dispatchOf (cs : List (List Int)) : List Effect :=
  cs.flatMap fun c =>
    (if 0 < c.length then [Effect.sendChunk c] else []) ++ [Effect.sleep 50]

/-- The effect trace of the file-upload send loop on a decoded buffer. -/
def fileDispatchTrace (xs : List Int) : List Effect :=
  dispatchOf (fileChunks xs)

/-- `handleFileUpload` on a selected file: resets transcript/error, sets the
processing flag, starts a session (bailing out when `startSession` returned
null); then decodes the file — on decode failure it sets the decode error,
clears the flag and stops the session; on success it runs the chunked send
loop, waits the 2000 ms settling delay, stops the session and clears the
flag. `audioData` is the decoded, resampled sample buffer. -/
def handleFileUpload (env : Env) (audioData : List Int) (s : PanelState) :
    PanelState × List Effect :=
  let s0 : PanelState := { s with transcription := "", error := none, isProcessing := true }
  let r := startSession env s0
  if r.2.2 then
    if env.decodeOk then
      let r2 := stopSession { r.1 with isProcessing := false }
      (r2.1, r.2.1 ++ [Effect.decodeCall] ++ fileDispatchTrace audioData
        ++ [Effect.sleep 2000] ++ r2.2)
    else
      let s1 : PanelState := { r.1 with
        error := some "Error al procesar el archivo de audio.", isProcessing := false }
      let r2 := stopSession s1
      (r2.1, r.2.1 ++ [Effect.decodeCall] ++ r2.2)
  else
    ({ r.1 with isProcessing := false }, r.2.1)

/-- The subsequence of chunks sent in an effect trace, in order. -/
def sentChunks : List Effect → List (List Int)
  | [] => []
  | Effect.sendChunk c :: es => c :: sentChunks es
  | _ :: es => sentChunks es

/-- Claim C3: with no API credential configured, start-recording from idle and
file-upload both fail immediately with the configuration error, leave their
recording/processing flag false, and make no session connect call. -/
theorem no_credential_no_session (env : Env) (s : PanelState)
    (hk : env.apiKey = false) (hr : s.isRecording = false) :
    ((startRecording env s).1.isRecording = false
      ∧ (startRecording env s).1.error = some "API_KEY environment variable not set."
      ∧ Effect.connect ∉ (startRecording env s).2)
    ∧ (∀ audioData : List Int,
        (handleFileUpload env audioData s).1.isProcessing = false
        ∧ (handleFileUpload env audioData s).1.error
            = some "API_KEY environment variable not set."
        ∧ Effect.connect ∉ (handleFileUpload env audioData s).2) := by
  constructor
  · simp [startRecording, startSession, hk, hr]
  · intro audioData
    simp [handleFileUpload, startSession, hk]

/-- Witness for C3 at the concrete environment with no key and the idle state. -/
theorem no_credential_no_session_witness :
    (Env.mk false false false).apiKey = false
    ∧ idleState.isRecording = false
    ∧ Effect.connect ∉ (startRecording (Env.mk false false false) idleState).2
    ∧ (handleFileUpload (Env.mk false false false) [1, 2] idleState).1.isProcessing = false :=
  ⟨rfl, rfl, (no_credential_no_session (Env.mk false false false) idleState rfl rfl).1.2.2,
    ((no_credential_no_session (Env.mk false false false) idleState rfl rfl).2 [1, 2]).1⟩

/-- Claim C2, counterexample: with a credential configured and a file whose
decode fails, the upload operation still makes exactly one session connect
call — the session is opened before decoding is attempted — refuting the
claim that zero session-connect calls occur. -/
theorem decode_failure_connects :
    ((handleFileUpload (Env.mk true true false) [1] idleState).2).count Effect.connect = 1
    ∧ (handleFileUpload (Env.mk true true false) [1] idleState).1.error
        = some "Error al procesar el archivo de audio." := by
  refine ⟨by decide, by decide⟩

/-- Claim C2, amended: on the file-upload path with a credential configured, a
decode failure fails the operation with the decode error, clears the processing
flag, and closes the already-opened session; the effect trace is exactly
connect, decode attempt, session close — one connect call, made before
decoding, rather than zero. -/
theorem decode_failure_closes_session (env : Env) (audioData : List Int) (s : PanelState)
    (hk : env.apiKey = true) (hd : env.decodeOk = false) :
    (handleFileUpload env audioData s).1.error = some "Error al procesar el archivo de audio."
    ∧ (handleFileUpload env audioData s).1.isProcessing = false
    ∧ (handleFileUpload env audioData s).1.sessionOpen = false
    ∧ (handleFileUpload env audioData s).2
        = [Effect.connect, Effect.decodeCall, Effect.sessionClose] := by
  simp [handleFileUpload, startSession, stopSession, hk, hd]

/-- Witness for the amended C2 at a concrete failing-decode environment. -/
theorem decode_failure_closes_session_witness :
    (Env.mk true true false).apiKey = true
    ∧ (Env.mk true true false).decodeOk = false
    ∧ (handleFileUpload (Env.mk true true false) [1] idleState).2
        = [Effect.connect, Effect.decodeCall, Effect.sessionClose] :=
  ⟨rfl, rfl, (decode_failure_closes_session (Env.mk true true false) [1] idleState rfl rfl).2.2.2⟩

/-- A panel state in the middle of an active recording, with an open session
and all media resources held. -/
def recordingState : PanelState :=
  { isRecording := true, isProcessing := false, transcription := "",
    error := none, sessionOpen := true, mediaStream := true,
    scriptProcessor := true, mediaStreamSource := true, audioContext := true }

/-- Claim C5, counterexample: invoking start-recording while a recording is
active with an open session is an early-return no-op — the trace contains
neither a close of the first session nor a second connect — refuting the claim
that the first session is closed before a second one is opened. -/
theorem second_recording_is_noop :
    startRecording (Env.mk true true true) recordingState = (recordingState, [])
    ∧ Effect.sessionClose ∉ (startRecording (Env.mk true true true) recordingState).2
    ∧ Effect.connect ∉ (startRecording (Env.mk true true true) recordingState).2 := by
  refine ⟨by decide, by decide, by decide⟩

/-- Claim C5, amended: a second start-recording while one is active is rejected
by the `isRecording` guard rather than closing the first session — it is a
no-op that opens nothing — so no connect is ever issued while a session is
already open, and start-recording preserves the invariant that an open session
implies an active recording; hence no two concurrent sessions are observed
across any sequence of start-recording invocations. -/
theorem single_session_invariant (env : Env) (s : PanelState)
    (hinv : s.sessionOpen = true → s.isRecording = true) :
    (s.isRecording = true → startRecording env s = (s, []))
    ∧ (s.sessionOpen = true → Effect.connect ∉ (startRecording env s).2)
    ∧ ((startRecording env s).1.sessionOpen = true →
        (startRecording env s).1.isRecording = true) := by
  by_cases hr : s.isRecording = true
  · refine ⟨fun _ => by simp [startRecording, hr], fun _ => by simp [startRecording, hr], ?_⟩
    simp [startRecording, hr]
  · have hr' : s.isRecording = false := by
      cases h : s.isRecording
      · rfl
      · exact absurd h hr
    have hso : s.sessionOpen = false := by
      cases h : s.sessionOpen
      · rfl
      · exact absurd (hinv h) hr
    refine ⟨fun h => absurd h hr, fun h => absurd h (by simp [hso]), ?_⟩
    by_cases hk : env.apiKey = true
    · by_cases hm : env.micOk = true
      · simp [startRecording, startSession, hr', hk, hm]
      · simp [startRecording, startSession, stopSession, hr', hk, hm]
    · simp [startRecording, startSession, hr', hk, hso]

/-- Witness for the amended C5 at the active-recording state. -/
theorem single_session_invariant_witness :
    (recordingState.sessionOpen = true → recordingState.isRecording = true)
    ∧ (recordingState.isRecording = true →
        startRecording (Env.mk true true true) recordingState = (recordingState, [])) :=
  ⟨fun _ => rfl,
    (single_session_invariant (Env.mk true true true) recordingState (fun _ => rfl)).1⟩

/-- Claim C6: stopping the live capture source is idempotent — a second
`stopRecording` from the state the first one left leaves that state unchanged
and performs no effect at all, and across the two stops the session close is
requested at most once, because the first stop cleared the session reference. -/
theorem stopRecording_idempotent (s : PanelState) :
    (stopRecording (stopRecording s).1).1 = (stopRecording s).1
    ∧ (stopRecording (stopRecording s).1).2 = []
    ∧ ((stopRecording s).2
        ++ (stopRecording (stopRecording s).1).2).count Effect.sessionClose ≤ 1 := by
  rcases s with ⟨rec, proc, tr, err, so, ms, sp, mss, ac⟩
  cases so <;> cases ms <;> cases sp <;> cases mss <;> cases ac <;>
    simp [stopRecording, stopSession, List.count_cons]

/-- Claim C7: the session error callback sets the user-visible session-error
message and forces both the recording and processing flags false, whatever
their prior values, and performs no further effect — in particular no
reconnect attempt. -/
theorem session_error_resets (s : PanelState) :
    (onerror s).1.error = some "Error en la sesión de transcripción. Intente de nuevo."
    ∧ (onerror s).1.isRecording = false
    ∧ (onerror s).1.isProcessing = false
    ∧ (onerror s).2 = [] := by
  refine ⟨rfl, rfl, rfl, rfl⟩

theorem fileChunks_nil : fileChunks [] = [] := by
  unfold fileChunks
  simp

theorem fileChunks_ne_nil (xs : List Int) (h : xs ≠ []) :
    fileChunks xs = xs.take chunkSize :: fileChunks (xs.drop chunkSize) := by
  conv_lhs => rw [fileChunks]
  exact dif_neg h

theorem fileChunks_length (xs : List Int) :
    (fileChunks xs).length = (xs.length + 4095) / 4096 := by
  induction xs using fileChunks.induct with
  | case1 => simp [fileChunks_nil]
  | case2 xs h ih =>
    rw [fileChunks_ne_nil xs h, List.length_cons, ih]
    have hlen : 0 < xs.length := List.length_pos.mpr h
    simp only [List.length_drop, chunkSize]
    omega

theorem fileChunks_mem (xs : List Int) (c : List Int) (hc : c ∈ fileChunks xs) :
    c ≠ [] ∧ c.length ≤ 4096 := by
  induction xs using fileChunks.induct with
  | case1 => simp [fileChunks_nil] at hc
  | case2 xs h ih =>
    rw [fileChunks_ne_nil xs h] at hc
    rcases List.mem_cons.mp hc with hc | hc
    · subst hc
      constructor
      · simp [List.take_eq_nil_iff, h, chunkSize]
      · simpa [chunkSize] using Nat.min_le_left 4096 xs.length
    · exact ih hc

theorem fileChunks_flatten (xs : List Int) : (fileChunks xs).flatten = xs := by
  induction xs using fileChunks.induct with
  | case1 => simp [fileChunks_nil]
  | case2 xs h ih =>
    rw [fileChunks_ne_nil xs h, List.flatten_cons, ih, List.take_append_drop]

theorem dispatchOf_nonempty (cs : List (List Int)) (h : ∀ c ∈ cs, c ≠ []) :
    dispatchOf cs = cs.flatMap fun c => [Effect.sendChunk c, Effect.sleep 50] := by
  induction cs with
  | nil => rfl
  | cons c cs ih =>
    have hc : c ≠ [] := h c (List.mem_cons_self c cs)
    have hlen : 0 < c.length := List.length_pos.mpr hc
    simp only [dispatchOf, List.flatMap_cons] at *
    rw [if_pos hlen, ih fun d hd => h d (List.mem_cons_of_mem c hd)]
    simp

theorem sentChunks_append (a b : List Effect) :
    sentChunks (a ++ b) = sentChunks a ++ sentChunks b := by
  induction a with
  | nil => rfl
  | cons e es ih => cases e <;> simp [sentChunks, ih]

theorem sentChunks_dispatchOf (cs : List (List Int)) (h : ∀ c ∈ cs, c ≠ []) :
    sentChunks (dispatchOf cs) = cs := by
  rw [dispatchOf_nonempty cs h]
  induction cs with
  | nil => rfl
  | cons c cs ih =>
    simp only [List.flatMap_cons, sentChunks_append]
    rw [ih fun d hd => h d (List.mem_cons_of_mem c hd)]
    simp [sentChunks]

/-- Claim C4: with a credential configured and a successful decode, the chunks
sent on the file-upload path are exactly the consecutive slices of the decoded
buffer taken in order with 4096 samples each: there are ceil(n/4096) of them,
none is empty, each holds at most 4096 samples, and their concatenation is the
original buffer; the dispatch trace alternates each send with the fixed 50 ms
pacing delay. -/
theorem fileUpload_chunking (env : Env) (audioData : List Int) (s : PanelState)
    (hk : env.apiKey = true) (hd : env.decodeOk = true) :
    sentChunks (handleFileUpload env audioData s).2 = fileChunks audioData
    ∧ (fileChunks audioData).length = (audioData.length + 4095) / 4096
    ∧ (∀ c ∈ fileChunks audioData, c ≠ [] ∧ c.length ≤ 4096)
    ∧ (fileChunks audioData).flatten = audioData
    ∧ fileDispatchTrace audioData
        = (fileChunks audioData).flatMap fun c => [Effect.sendChunk c, Effect.sleep 50] := by
  have hne : ∀ c ∈ fileChunks audioData, c ≠ [] :=
    fun c hc => (fileChunks_mem audioData c hc).1
  refine ⟨?_, fileChunks_length audioData, fun c hc => fileChunks_mem audioData c hc,
    fileChunks_flatten audioData, dispatchOf_nonempty _ hne⟩
  simp only [handleFileUpload, startSession, stopSession, hk, hd, if_pos, if_true]
  simp only [fileDispatchTrace, sentChunks_append]
  rw [sentChunks_dispatchOf _ hne]
  simp [sentChunks]

/-- Witness for C4 on a concrete five-sample buffer. -/
theorem fileUpload_chunking_witness :
    (Env.mk true true true).apiKey = true
    ∧ (Env.mk true true true).decodeOk = true
    ∧ sentChunks (handleFileUpload (Env.mk true true true) [1, 2, 3, 4, 5] idleState).2
        = fileChunks [1, 2, 3, 4, 5]
    ∧ (fileChunks [1, 2, 3, 4, 5]).flatten = [1, 2, 3, 4, 5] :=
  ⟨rfl, rfl,
    (fileUpload_chunking (Env.mk true true true) [1, 2, 3, 4, 5] idleState rfl rfl).1,
    (fileUpload_chunking (Env.mk true true true) [1, 2, 3, 4, 5] idleState rfl rfl).2.2.2.1⟩

/-- A file handed to the text-to-speech document upload: its MIME type
(`file.type`) and its name (`file.name`). -/
structure UploadedFile where
  type : String
  name : String
  deriving DecidableEq, Repr

/-- The React state of `TextToSpeechPanel`: the text area contents, the
playback URL if one is exposed, the loading flag and the error message. -/
structure TtsState where
  text : String
  audioUrl : Option String
  isLoading : Bool
  error : Option String
  deriving DecidableEq, Repr

/-- The idle text-to-speech state right after mount. -/
def ttsIdleState : TtsState :=
  { text := "", audioUrl := none, isLoading := false, error := none }

/-- Observable side effects of the text-to-speech panel, in emission order:
clearing the playback URL (`setAudioUrl(null)`), the two document
text-extraction calls, and the synthesis service call. -/
inductive TtsEffect where
  | clearUrl
  | extractPdf
  | extractDocx
  | synthCall
  deriving DecidableEq, Repr

/-- Suffix test on strings, the semantics of `name.endsWith(pat)`, computed on
the underlying character lists so that concrete instances reduce in the
kernel. -/
def strEndsWith (s pat : String) : Bool :=
  pat.data.isSuffixOf s.data

/-- Whitespace trim on both ends, the semantics of `text.trim()`, computed on
the underlying character lists so that concrete instances reduce in the
kernel. -/
def strTrim (s : String) : String :=
  String.mk (((s.data.dropWhile Char.isWhitespace).reverse.dropWhile
    Char.isWhitespace).reverse)

/-- `handleFileChange` of `TextToSpeechPanel` on a selected file: clears error
and playback URL, sets loading and the progress text; dispatches on
`file.type === 'application/pdf'` to PDF extraction, else on
`file.name.endsWith('.docx')` to DOCX extraction — each setting the extracted
text on success or the branch error (with the text cleared) on failure — and
otherwise rejects with the unsupported-type error, clearing the text.
`pdfOk`/`docxOk` are the extraction outcomes and `pdfText`/`docxText` the
extracted contents. -/
def handleFileChange (pdfOk docxOk : Bool) (pdfText docxText : String)
    (f : UploadedFile) (s : TtsState) : TtsState × List TtsEffect :=
  let s0 : TtsState := { s with
    error := none, isLoading := true, audioUrl := none,
    text := "Procesando archivo: " ++ f.name ++ "..." }
  if f.type = "application/pdf" then
    if pdfOk then
      ({ s0 with text := pdfText, isLoading := false },
        [TtsEffect.clearUrl, TtsEffect.extractPdf])
    else
      ({ s0 with text := "", isLoading := false,
                 error := some "No se pudo procesar el archivo PDF." },
        [TtsEffect.clearUrl, TtsEffect.extractPdf])
  else if strEndsWith f.name ".docx" then
    if docxOk then
      ({ s0 with text := docxText, isLoading := false },
        [TtsEffect.clearUrl, TtsEffect.extractDocx])
    else
      ({ s0 with text := "", isLoading := false,
                 error := some "No se pudo procesar el archivo DOCX." },
        [TtsEffect.clearUrl, TtsEffect.extractDocx])
  else
    ({ s0 with text := "", isLoading := false,
               error := some "Tipo de archivo no soportado. Por favor, suba un PDF o DOCX." },
      [TtsEffect.clearUrl])

/-- `geminiService.generateSpeechFromText`: throws when no API key is
configured, calls the synthesis model, and throws when the response carries no
audio payload; otherwise returns the base64 audio string. `responseAudio` is
the inline data of the first candidate part, when present. -/
def generateSpeechFromText (apiKey : Bool) (responseAudio : Option String) :
    Except String String :=
  if apiKey then
    match responseAudio with
    | some b64 => Except.ok b64
    | none => Except.error "No audio data received from API."
  else
    Except.error "API_KEY environment variable not set."

/-- `handleGenerateAudio` of `TextToSpeechPanel`: returns early when the
trimmed text is empty or a request is already loading; otherwise clears the
error, sets loading, clears the playback URL, then awaits the synthesis call —
`outcome` is the awaited result of `generateSpeechFromText`, an error also
standing for a network rejection. On success the returned audio (decoded and
wrapped as a WAV object URL) becomes the playback handle; on failure the
synthesis error message is surfaced and no handle is exposed. -/
def handleGenerateAudio (outcome : Except String String) (s : TtsState) :
    TtsState × List TtsEffect :=
  if strTrim s.text = "" ∨ s.isLoading then (s, [])
  else
    let s0 : TtsState := { s with error := none, isLoading := true, audioUrl := none }
    match outcome with
    | Except.ok b64 =>
        ({ s0 with audioUrl := some b64, isLoading := false },
          [TtsEffect.clearUrl, TtsEffect.synthCall])
    | Except.error msg =>
        ({ s0 with error := some ("Fallo al generar audio: " ++ msg), isLoading := false },
          [TtsEffect.clearUrl, TtsEffect.synthCall])

/-- Claim C8, counterexample: a file whose MIME type is text/plain — not a
supported PDF/DOCX type — but whose name ends in ".docx" is dispatched to DOCX
extraction: the extraction call is attempted and no unsupported-type error is
raised, refuting the claim that every unsupported-MIME upload is rejected
before extraction. -/
theorem unsupported_mime_still_extracted :
    TtsEffect.extractDocx ∈ (handleFileChange true true "" "contenido"
        (UploadedFile.mk "text/plain" "notas.docx") ttsIdleState).2
    ∧ (handleFileChange true true "" "contenido"
        (UploadedFile.mk "text/plain" "notas.docx") ttsIdleState).1.error = none
    ∧ (UploadedFile.mk "text/plain" "notas.docx").type = "text/plain" := by
  refine ⟨by decide, by decide, rfl⟩

/-- Claim C8, amended: dispatch is by MIME type for PDF but by filename
extension for DOCX; whenever the MIME type is not application/pdf and the
filename does not end in ".docx", the upload is rejected with the
unsupported-type error, the text field is cleared, and no extraction call of
either kind is attempted. -/
theorem unsupported_file_rejected (pdfOk docxOk : Bool) (pdfText docxText : String)
    (f : UploadedFile) (s : TtsState)
    (h1 : f.type ≠ "application/pdf") (h2 : strEndsWith f.name ".docx" = false) :
    (handleFileChange pdfOk docxOk pdfText docxText f s).1.error
        = some "Tipo de archivo no soportado. Por favor, suba un PDF o DOCX."
    ∧ (handleFileChange pdfOk docxOk pdfText docxText f s).1.text = ""
    ∧ TtsEffect.extractPdf ∉ (handleFileChange pdfOk docxOk pdfText docxText f s).2
    ∧ TtsEffect.extractDocx ∉ (handleFileChange pdfOk docxOk pdfText docxText f s).2 := by
  simp [handleFileChange, h1, h2]

/-- Witness for the amended C8 on a plain-text file. -/
theorem unsupported_file_rejected_witness :
    (UploadedFile.mk "text/plain" "notas.txt").type ≠ "application/pdf"
    ∧ strEndsWith (UploadedFile.mk "text/plain" "notas.txt").name ".docx" = false
    ∧ TtsEffect.extractDocx ∉ (handleFileChange true true "" ""
        (UploadedFile.mk "text/plain" "notas.txt") ttsIdleState).2 :=
  ⟨by decide, by decide,
    (unsupported_file_rejected true true "" "" (UploadedFile.mk "text/plain" "notas.txt")
      ttsIdleState (by decide) (by decide)).2.2.2⟩

/-- Claim C9: once a synthesis attempt starts (nonempty trimmed text, not
already loading), the playback URL is cleared and the clear strictly precedes
the synthesis call in the effect trace; on any failing outcome — the service
reporting no audio data, or a network error — the synthesis error is surfaced
and the playback handle is none, so a failed attempt never leaves a stale
handle from a prior success. -/
theorem generate_audio_no_stale_handle (outcome : Except String String) (s : TtsState)
    (ht : strTrim s.text ≠ "") (hl : s.isLoading = false) :
    (handleGenerateAudio outcome s).2 = [TtsEffect.clearUrl, TtsEffect.synthCall]
    ∧ (∀ msg, outcome = Except.error msg →
        (handleGenerateAudio outcome s).1.audioUrl = none
        ∧ (handleGenerateAudio outcome s).1.error
            = some ("Fallo al generar audio: " ++ msg))
    ∧ (∀ apiKey : Bool,
        (handleGenerateAudio (generateSpeechFromText apiKey none) s).1.audioUrl = none) := by
  refine ⟨?_, ?_, ?_⟩
  · cases outcome <;> simp [handleGenerateAudio, ht, hl]
  · intro msg hmsg
    subst hmsg
    simp [handleGenerateAudio, ht, hl]
  · intro apiKey
    cases apiKey <;> simp [generateSpeechFromText, handleGenerateAudio, ht, hl]

/-- Witness for C9: a failing synthesis attempt from a state that still holds a
playback handle of an earlier success ends with no handle exposed. -/
theorem generate_audio_no_stale_handle_witness :
    strTrim (TtsState.mk "hola" (some "vieja") false none).text ≠ ""
    ∧ (TtsState.mk "hola" (some "vieja") false none).isLoading = false
    ∧ (handleGenerateAudio (Except.error "network")
        (TtsState.mk "hola" (some "vieja") false none)).1.audioUrl = none :=
  ⟨by decide, rfl,
    ((generate_audio_no_stale_handle (Except.error "network")
        (TtsState.mk "hola" (some "vieja") false none) (by decide) rfl).2.1
      "network" rfl).1⟩

end AppAudiencias
